import Mathlib

/-!
# Observability configuration

A shallow embedding of `apps/backend/internal/config/observability.go`:
the configuration records, `DefaultObservabilityConfig`, `Validate`,
`GetLoggingLevel` and `IsProduction`, followed by the properties proved of them.

Modelling conventions.
* Go `string` is `String`; `==` on strings is decidable equality.
* `time.Duration` is an `int64` count of nanoseconds. It is embedded as `Int`;
  the code only compares a duration with `0` and builds constants that fit in
  64 bits, so no wrap-around is involved. Statements quantified over every
  `Int` cover in particular every `int64`.
* The Go `error` result of `Validate` is `Except String Unit`: `nil` is
  `Except.ok ()`, and `fmt.Errorf(...)` is `Except.error` of the formatted message.
* `map[string]bool` is an association list; indexing a missing key gives the
  zero value `false`.
-/

namespace Config

/-! ## Durations (package `time`) -/

/-- Go `time.Duration`: a signed count of nanoseconds. -/
abbrev Duration := Int

/-- Go `time.Millisecond`. -/
def Millisecond : Duration := 1000000

/-- Go `time.Second`. -/
def Second : Duration := 1000000000

/-! ## Data model -/

/-- Go `LoggingConfig`. -/
structure LoggingConfig where
  Level : String
  Format : String
  SlowQueryThreshold : Duration
  deriving DecidableEq, Repr

/-- Go `NewRelicConfig`. -/
structure NewRelicConfig where
  LicenseKey : String
  AppLogForwardingEnabled : Bool
  DistributedTracingEnabled : Bool
  DebugLogging : Bool
  deriving DecidableEq, Repr

/-- Go `HealthChecksConfig`. -/
structure HealthChecksConfig where
  Enabled : Bool
  Interval : Duration
  Timeout : Duration
  Checks : List String
  deriving DecidableEq, Repr

/-- Go `ObservabilityConfig`. -/
structure ObservabilityConfig where
  ServiceName : String
  Environment : String
  Logging : LoggingConfig
  NewRelic : NewRelicConfig
  HealthChecks : HealthChecksConfig
  deriving DecidableEq, Repr

/-! ## Operations -/

/-- Go `DefaultObservabilityConfig`. -/
def DefaultObservabilityConfig : ObservabilityConfig :=
  { ServiceName := "boilerplate"
    Environment := "development"
    Logging :=
      { Level := "info"
        Format := "json"
        SlowQueryThreshold := 100 * Millisecond }
    NewRelic :=
      { LicenseKey := ""
        AppLogForwardingEnabled := true
        DistributedTracingEnabled := true
        DebugLogging := false }
    HealthChecks :=
      { Enabled := true
        Interval := 30 * Second
        Timeout := 3 * Second
        Checks := ["database", "redis"] } }

/-- Indexing a Go `map[string]bool`: the stored value, or `false` for a key
that is not present. -/
def mapIndex (m : List (String × Bool)) (k : String) : Bool :=
  match m with
  | [] => false
  | (k', v) :: rest => if k' = k then v else mapIndex rest k

/-- The map literal `validateLevels` built inside `Validate`. -/
def validateLevels : List (String × Bool) :=
  [("debug", true), ("info", true), ("warn", true), ("error", true)]

/-- The message of
`fmt.Errorf("invalid logging level: %s (must be one of: debug, info, warn, error)", level)`. -/
def invalidLevelMsg (level : String) : String :=
  "invalid logging level: " ++ level ++ " (must be one of: debug, info, warn, error)"

/-- Go `(*ObservabilityConfig).Validate`. -/
def Validate (c : ObservabilityConfig) : Except String Unit :=
  if c.ServiceName = "" then
    Except.error "service_name is required"
  else if !(mapIndex validateLevels c.Logging.Level) then
    Except.error (invalidLevelMsg c.Logging.Level)
  else if c.Logging.SlowQueryThreshold < 0 then
    Except.error "logging slow_query_threshold must be non-negative"
  else
    Except.ok ()

/-- Go `(*ObservabilityConfig).GetLoggingLevel`. The `switch` has no
`default` case and no `fallthrough`: a case whose inner `if` fails leaves the
`switch` and reaches the final `return c.Logging.Level`. -/
def GetLoggingLevel (c : ObservabilityConfig) : String :=
  if c.Environment = "production" then
    if c.Logging.Level = "" then "info" else c.Logging.Level
  else if c.Environment = "development" then
    if c.Logging.Level = "" then "debug" else c.Logging.Level
  else
    c.Logging.Level

/-- Go `(*ObservabilityConfig).IsProduction`. -/
def IsProduction (c : ObservabilityConfig) : Bool :=
  decide (c.Environment = "production")

/-! ## Specification vocabulary -/

/-- The allowed level names, as the specification lists them. -/
def allowedLevels : List String := ["debug", "info", "warn", "error"]

/-- The text `s` contains the text `sub` verbatim. -/
def Mentions (s sub : String) : Prop := ∃ p q : String, s = p ++ sub ++ q

/-! ## Auxiliary lemmas -/

theorem mapIndex_validateLevels (k : String) :
    mapIndex validateLevels k = true ↔ k ∈ allowedLevels := by
  simp only [validateLevels, mapIndex, allowedLevels, List.mem_cons, List.mem_singleton,
    List.mem_nil_iff, or_false]
  by_cases h1 : "debug" = k
  · simp [h1.symm]
  by_cases h2 : "info" = k
  · simp [h2.symm]
  by_cases h3 : "warn" = k
  · simp [h3.symm]
  by_cases h4 : "error" = k
  · simp [h4.symm]
  simp [h1, h2, h3, h4, Ne.symm h1, Ne.symm h2, Ne.symm h3, Ne.symm h4, eq_comm]

theorem mapIndex_validateLevels_false (k : String) :
    mapIndex validateLevels k = false ↔ k ∉ allowedLevels := by
  rw [← mapIndex_validateLevels]
  cases mapIndex validateLevels k <;> simp

/-- The level message never coincides with the threshold message: they differ
in their first character. -/
theorem invalidLevelMsg_ne_threshold (level : String) :
    invalidLevelMsg level ≠ "logging slow_query_threshold must be non-negative" := by
  intro h
  have h2 := congrArg String.data h
  simp [invalidLevelMsg, String.data_append] at h2

/-- `Validate` succeeds exactly on a non-empty service name, an allowed level
and a threshold that is not negative. -/
theorem validate_ok_iff_aux (c : ObservabilityConfig) :
    Validate c = Except.ok () ↔
      (c.ServiceName ≠ "" ∧ c.Logging.Level ∈ allowedLevels ∧
        0 ≤ c.Logging.SlowQueryThreshold) := by
  unfold Validate
  by_cases hs : c.ServiceName = ""
  · simp [hs]
  by_cases hl : c.Logging.Level ∈ allowedLevels
  · have hm := (mapIndex_validateLevels c.Logging.Level).2 hl
    by_cases ht : c.Logging.SlowQueryThreshold < 0
    · simp [hs, hl, hm, ht]
    · simp [hs, hl, hm, ht, not_lt.1 ht]
  · have hm := (mapIndex_validateLevels_false c.Logging.Level).2 hl
    simp [hs, hl, hm]

/-! ## Validation contract -/

/-- C1: `Validate` returns nil exactly when the service name is non-empty, the
logging level is one of debug, info, warn, error, and the slow-query threshold
is at least zero; in every other case it returns a non-nil error. -/
theorem validate_ok_iff (c : ObservabilityConfig) :
    (Validate c = Except.ok () ↔
      (c.ServiceName ≠ "" ∧ c.Logging.Level ∈ allowedLevels ∧
        0 ≤ c.Logging.SlowQueryThreshold)) ∧
    (¬ (c.ServiceName ≠ "" ∧ c.Logging.Level ∈ allowedLevels ∧
        0 ≤ c.Logging.SlowQueryThreshold) →
      ∃ msg, Validate c = Except.error msg) := by
  unfold Validate
  by_cases hs : c.ServiceName = ""
  · simp [hs]
  by_cases hl : c.Logging.Level ∈ allowedLevels
  · have hm := (mapIndex_validateLevels c.Logging.Level).2 hl
    by_cases ht : c.Logging.SlowQueryThreshold < 0
    · simp [hs, hl, hm, ht]
    · simp [hs, hl, hm, ht, not_lt.1 ht]
  · have hm := (mapIndex_validateLevels_false c.Logging.Level).2 hl
    simp [hs, hl, hm]

/-- C2: the value built by `DefaultObservabilityConfig` passes `Validate`. -/
theorem validate_default : Validate DefaultObservabilityConfig = Except.ok () := by
  rfl

/-- C3: the three rules are checked in the order service name, level,
threshold, and only the first violation is reported. An empty service name
gives "service_name is required" whatever the level and threshold are; a
non-empty service name with a level outside the allowed set gives the message
"invalid logging level: LEVEL (must be one of: debug, info, warn, error)"
whatever the threshold is, which is neither the service-name message nor the
threshold message; and the threshold message is returned exactly when the
service name is non-empty, the level is allowed and the threshold is
negative. -/
theorem validate_first_violation (c : ObservabilityConfig) :
    (c.ServiceName = "" → Validate c = Except.error "service_name is required") ∧
    (c.ServiceName ≠ "" → c.Logging.Level ∉ allowedLevels →
      Validate c = Except.error
          ("invalid logging level: " ++ c.Logging.Level ++
            " (must be one of: debug, info, warn, error)") ∧
        Validate c ≠ Except.error "service_name is required" ∧
        Validate c ≠ Except.error "logging slow_query_threshold must be non-negative") ∧
    (Validate c = Except.error "logging slow_query_threshold must be non-negative" ↔
      (c.ServiceName ≠ "" ∧ c.Logging.Level ∈ allowedLevels ∧
        c.Logging.SlowQueryThreshold < 0)) := by
  have hreq : "invalid logging level: " ++ c.Logging.Level ++
      " (must be one of: debug, info, warn, error)" ≠ "service_name is required" := by
    intro h
    have h2 := congrArg String.data h
    simp [String.data_append] at h2
  have hthr : "invalid logging level: " ++ c.Logging.Level ++
      " (must be one of: debug, info, warn, error)" ≠
        "logging slow_query_threshold must be non-negative" := by
    intro h
    have h2 := congrArg String.data h
    simp [String.data_append] at h2
  by_cases hs : c.ServiceName = ""
  · simp [Validate, hs]
  by_cases hl : c.Logging.Level ∈ allowedLevels
  · have hm := (mapIndex_validateLevels c.Logging.Level).2 hl
    by_cases ht : c.Logging.SlowQueryThreshold < 0
    · simp [Validate, hs, hl, hm, ht]
    · simp [Validate, hs, hl, hm, ht]
  · have hm := (mapIndex_validateLevels_false c.Logging.Level).2 hl
    have hv : Validate c = Except.error
        ("invalid logging level: " ++ c.Logging.Level ++
          " (must be one of: debug, info, warn, error)") := by
      simp [Validate, hs, hm, invalidLevelMsg]
    refine ⟨fun h => absurd h hs, fun _ _ => ⟨hv, ?_, ?_⟩, ?_⟩
    · rw [hv]
      intro h
      exact hreq (Except.error.inj h)
    · rw [hv]
      intro h
      exact hthr (Except.error.inj h)
    · rw [hv]
      constructor
      · intro h
        exact absurd (Except.error.inj h) hthr
      · intro h
        exact absurd h.2.1 hl

/-- Concrete instances of C3: an empty service name masks a bad level and a
negative threshold, and a bad level masks a negative threshold. -/
theorem validate_first_violation_witness :
    Validate { DefaultObservabilityConfig with
        ServiceName := ""
        Logging := { Level := "trace", Format := "json", SlowQueryThreshold := -1 } }
      = Except.error "service_name is required" ∧
    Validate { DefaultObservabilityConfig with
        Logging := { Level := "trace", Format := "json", SlowQueryThreshold := -1 } }
      = Except.error
          "invalid logging level: trace (must be one of: debug, info, warn, error)" :=
  ⟨(validate_first_violation _).1 rfl,
   ((validate_first_violation _).2.1 (by decide) (by decide)).1⟩

/-- C4: with a non-empty service name and a level that is not exactly one of
debug, info, warn, error, `Validate` fails with the message
"invalid logging level: LEVEL (must be one of: debug, info, warn, error)";
that message contains the offending level verbatim and each of the four
allowed level names. -/
theorem validate_invalid_level (c : ObservabilityConfig)
    (hs : c.ServiceName ≠ "") (hl : c.Logging.Level ∉ allowedLevels) :
    Validate c = Except.error
      ("invalid logging level: " ++ c.Logging.Level ++
        " (must be one of: debug, info, warn, error)") ∧
    Mentions ("invalid logging level: " ++ c.Logging.Level ++
        " (must be one of: debug, info, warn, error)") c.Logging.Level ∧
    ∀ a ∈ allowedLevels,
      Mentions ("invalid logging level: " ++ c.Logging.Level ++
        " (must be one of: debug, info, warn, error)") a := by
  have hm := (mapIndex_validateLevels_false c.Logging.Level).2 hl
  refine ⟨?_, ⟨"invalid logging level: ",
    " (must be one of: debug, info, warn, error)", rfl⟩, ?_⟩
  · simp [Validate, hs, hm, invalidLevelMsg]
  · intro a ha
    simp only [allowedLevels, List.mem_cons, List.mem_singleton, List.mem_nil_iff,
      or_false] at ha
    rcases ha with rfl | rfl | rfl | rfl
    · exact ⟨"invalid logging level: " ++ c.Logging.Level ++ " (must be one of: ",
        ", info, warn, error)", by apply String.ext; simp [String.data_append]⟩
    · exact ⟨"invalid logging level: " ++ c.Logging.Level ++ " (must be one of: debug, ",
        ", warn, error)", by apply String.ext; simp [String.data_append]⟩
    · exact ⟨"invalid logging level: " ++ c.Logging.Level ++
        " (must be one of: debug, info, ", ", error)",
        by apply String.ext; simp [String.data_append]⟩
    · exact ⟨"invalid logging level: " ++ c.Logging.Level ++
        " (must be one of: debug, info, warn, ", ")",
        by apply String.ext; simp [String.data_append]⟩

/-- Concrete instances of C4: the levels "trace", "INFO" and the empty string. -/
theorem validate_invalid_level_witness :
    Validate { DefaultObservabilityConfig with
        Logging := { Level := "trace", Format := "json", SlowQueryThreshold := 0 } }
      = Except.error
          "invalid logging level: trace (must be one of: debug, info, warn, error)" ∧
    Validate { DefaultObservabilityConfig with
        Logging := { Level := "INFO", Format := "json", SlowQueryThreshold := 0 } }
      = Except.error
          "invalid logging level: INFO (must be one of: debug, info, warn, error)" ∧
    Validate { DefaultObservabilityConfig with
        Logging := { Level := "", Format := "json", SlowQueryThreshold := 0 } }
      = Except.error
          "invalid logging level:  (must be one of: debug, info, warn, error)" :=
  ⟨(validate_invalid_level _ (by decide) (by decide)).1,
   (validate_invalid_level _ (by decide) (by decide)).1,
   (validate_invalid_level _ (by decide) (by decide)).1⟩

/-- C5: for each of the levels debug, info, warn, error, `Validate` succeeds
on the default configuration with only the logging level replaced. -/
theorem validate_default_with_level (level : String) (h : level ∈ allowedLevels) :
    Validate { DefaultObservabilityConfig with
        Logging := { DefaultObservabilityConfig.Logging with Level := level } }
      = Except.ok () := by
  simp only [allowedLevels, List.mem_cons, List.mem_singleton, List.mem_nil_iff,
    or_false] at h
  rcases h with rfl | rfl | rfl | rfl <;> rfl

/-- A concrete instance of C5: the level "warn". -/
theorem validate_default_with_level_witness :
    "warn" ∈ allowedLevels ∧
    Validate { DefaultObservabilityConfig with
        Logging := { DefaultObservabilityConfig.Logging with Level := "warn" } }
      = Except.ok () :=
  ⟨by decide, validate_default_with_level "warn" (by decide)⟩

/-- C6: on the default configuration with only the slow-query threshold
replaced by `d`, `Validate` succeeds exactly when `d` is at least zero. It
fails for minus one millisecond (-1000000 ns) and succeeds for zero and for
one hundred milliseconds (100000000 ns). -/
theorem validate_default_with_threshold :
    (∀ d : Duration,
      Validate { DefaultObservabilityConfig with
          Logging := { DefaultObservabilityConfig.Logging with SlowQueryThreshold := d } }
        = Except.ok () ↔ 0 ≤ d) ∧
    (-1 * Millisecond = -1000000 ∧
      Validate { DefaultObservabilityConfig with
          Logging := { DefaultObservabilityConfig.Logging with
            SlowQueryThreshold := -1 * Millisecond } }
        = Except.error "logging slow_query_threshold must be non-negative") ∧
    Validate { DefaultObservabilityConfig with
        Logging := { DefaultObservabilityConfig.Logging with SlowQueryThreshold := 0 } }
      = Except.ok () ∧
    (100 * Millisecond = 100000000 ∧
      Validate { DefaultObservabilityConfig with
          Logging := { DefaultObservabilityConfig.Logging with
            SlowQueryThreshold := 100 * Millisecond } }
        = Except.ok ()) := by
  refine ⟨?_, ⟨rfl, rfl⟩, rfl, ⟨rfl, rfl⟩⟩
  intro d
  have hm : mapIndex validateLevels "info" = true := rfl
  by_cases hd : d < 0
  · simp [Validate, DefaultObservabilityConfig, hm, hd]
  · simp [Validate, DefaultObservabilityConfig, hm, hd, not_lt.1 hd]

/-! ## Derived accessors -/

/-- C7: `GetLoggingLevel` is "info" for environment "production" with an empty
level, "debug" for environment "development" with an empty level, and the
configured level unchanged in every other case. A non-empty level is never
overridden by the environment, and an empty level with an environment that is
neither "production" nor "development" yields the empty string. -/
theorem getLoggingLevel_spec (c : ObservabilityConfig) :
    (c.Environment = "production" ∧ c.Logging.Level = "" → GetLoggingLevel c = "info") ∧
    (c.Environment = "development" ∧ c.Logging.Level = "" → GetLoggingLevel c = "debug") ∧
    (¬ (c.Environment = "production" ∧ c.Logging.Level = "") ∧
      ¬ (c.Environment = "development" ∧ c.Logging.Level = "") →
        GetLoggingLevel c = c.Logging.Level) ∧
    (c.Logging.Level ≠ "" → GetLoggingLevel c = c.Logging.Level) ∧
    (c.Logging.Level = "" → c.Environment ≠ "production" →
      c.Environment ≠ "development" → GetLoggingLevel c = "") := by
  unfold GetLoggingLevel
  by_cases hp : c.Environment = "production"
  · by_cases hl : c.Logging.Level = "" <;> simp [hp, hl]
  · by_cases hd : c.Environment = "development"
    · by_cases hl : c.Logging.Level = "" <;> simp [hd, hl]
    · by_cases hl : c.Logging.Level = "" <;> simp [hp, hd, hl]

/-- Concrete instances of C7: production and development with an empty level,
production with level "warn", and "staging" with an empty level. -/
theorem getLoggingLevel_spec_witness :
    GetLoggingLevel { DefaultObservabilityConfig with
        Environment := "production"
        Logging := { Level := "", Format := "json", SlowQueryThreshold := 0 } } = "info" ∧
    GetLoggingLevel { DefaultObservabilityConfig with
        Environment := "development"
        Logging := { Level := "", Format := "json", SlowQueryThreshold := 0 } } = "debug" ∧
    GetLoggingLevel { DefaultObservabilityConfig with
        Environment := "production"
        Logging := { Level := "warn", Format := "json", SlowQueryThreshold := 0 } } = "warn" ∧
    GetLoggingLevel { DefaultObservabilityConfig with
        Environment := "staging"
        Logging := { Level := "", Format := "json", SlowQueryThreshold := 0 } } = "" :=
  ⟨(getLoggingLevel_spec _).1 ⟨rfl, rfl⟩,
   (getLoggingLevel_spec _).2.1 ⟨rfl, rfl⟩,
   (getLoggingLevel_spec _).2.2.2.1 (by decide),
   (getLoggingLevel_spec _).2.2.2.2 rfl (by decide) (by decide)⟩

/-- C8: `IsProduction` is true exactly when the environment is the string
"production", compared case-sensitively and without trimming: it is true for
"production" and false for "Production", "PRODUCTION", "production " and "". -/
theorem isProduction_iff :
    (∀ c : ObservabilityConfig, IsProduction c = true ↔ c.Environment = "production") ∧
    (∀ c : ObservabilityConfig,
      IsProduction { c with Environment := "production" } = true ∧
      IsProduction { c with Environment := "Production" } = false ∧
      IsProduction { c with Environment := "PRODUCTION" } = false ∧
      IsProduction { c with Environment := "production " } = false ∧
      IsProduction { c with Environment := "" } = false) := by
  refine ⟨fun c => by simp [IsProduction], fun c => ?_⟩
  simp [IsProduction]

/-! ## Defaults -/

/-- C9: `DefaultObservabilityConfig` returns exactly service name
"boilerplate", environment "development", logging level "info", format "json"
and slow-query threshold 100000000 ns, New Relic licence key "" with log
forwarding and distributed tracing on and debug logging off, and health checks
enabled with interval 30000000000 ns, timeout 3000000000 ns and the checks
"database", "redis" in that order. -/
theorem default_values :
    DefaultObservabilityConfig =
      { ServiceName := "boilerplate"
        Environment := "development"
        Logging :=
          { Level := "info"
            Format := "json"
            SlowQueryThreshold := 100000000 }
        NewRelic :=
          { LicenseKey := ""
            AppLogForwardingEnabled := true
            DistributedTracingEnabled := true
            DebugLogging := false }
        HealthChecks :=
          { Enabled := true
            Interval := 30000000000
            Timeout := 3000000000
            Checks := ["database", "redis"] } } := by
  decide

/-! ## Fields that validation ignores -/

/-- C10: the outcome of `Validate` depends only on the service name, the
logging level and the slow-query threshold: two configurations that agree on
these three fields get the same result (the same success or the same error
message), whatever their other fields are. In particular a configuration whose
health-check interval or timeout is below one second, zero or negative
included, is accepted when the three checked fields are valid. -/
theorem validate_depends_only_on_checked_fields :
    (∀ c₁ c₂ : ObservabilityConfig,
      c₁.ServiceName = c₂.ServiceName →
      c₁.Logging.Level = c₂.Logging.Level →
      c₁.Logging.SlowQueryThreshold = c₂.Logging.SlowQueryThreshold →
        Validate c₁ = Validate c₂) ∧
    (∀ (c : ObservabilityConfig) (interval timeout : Duration),
      c.ServiceName ≠ "" →
      c.Logging.Level ∈ allowedLevels →
      0 ≤ c.Logging.SlowQueryThreshold →
      (interval < Second ∨ timeout < Second) →
        Validate { c with
          HealthChecks := { c.HealthChecks with Interval := interval, Timeout := timeout } }
          = Except.ok ()) := by
  constructor
  · intro c₁ c₂ h₁ h₂ h₃
    simp only [Validate, h₁, h₂, h₃]
  · intro c interval timeout hs hl ht _
    exact (validate_ok_iff_aux _).2 ⟨hs, hl, ht⟩

/-- Concrete instances of C10: a configuration that shares only the three
checked fields with the default one, with a zero interval and a negative
timeout, validates exactly as the default does, and is accepted. -/
theorem validate_depends_only_on_checked_fields_witness :
    Validate
        { ServiceName := "boilerplate"
          Environment := ""
          Logging := { Level := "info", Format := "", SlowQueryThreshold := 100000000 }
          NewRelic :=
            { LicenseKey := "k"
              AppLogForwardingEnabled := false
              DistributedTracingEnabled := false
              DebugLogging := true }
          HealthChecks := { Enabled := false, Interval := 0, Timeout := -5, Checks := [] } }
      = Validate DefaultObservabilityConfig ∧
    Validate { DefaultObservabilityConfig with
        HealthChecks :=
          { DefaultObservabilityConfig.HealthChecks with Interval := 0, Timeout := -5 } }
      = Except.ok () :=
  ⟨validate_depends_only_on_checked_fields.1 _ _ rfl rfl rfl,
   validate_depends_only_on_checked_fields.2 DefaultObservabilityConfig 0 (-5)
     (by decide) (by decide) (by decide) (Or.inl (by decide))⟩

/-! ## Validated configurations -/

/-- C11, as stated, fails: the default configuration passes `Validate` with an
empty licence key, and it still passes when its environment, or its logging
format, is replaced by the empty string. -/
theorem validate_required_fields_counterexample :
    (Validate DefaultObservabilityConfig = Except.ok () ∧
      DefaultObservabilityConfig.NewRelic.LicenseKey = "") ∧
    Validate { DefaultObservabilityConfig with Environment := "" } = Except.ok () ∧
    Validate { DefaultObservabilityConfig with
        Logging := { DefaultObservabilityConfig.Logging with Format := "" } }
      = Except.ok () ∧
    ¬ (∀ c : ObservabilityConfig, Validate c = Except.ok () →
        c.Environment ≠ "" ∧ c.Logging.Format ≠ "" ∧ c.NewRelic.LicenseKey ≠ "") := by
  refine ⟨⟨rfl, rfl⟩, rfl, rfl, ?_⟩
  intro h
  exact (h DefaultObservabilityConfig rfl).2.2 rfl

/-- C11, amended: in every configuration on which `Validate` succeeds the
service name and the logging level are non-empty; the environment, the logging
format and the licence key are not constrained: replacing them by any strings,
the empty string included, leaves the configuration valid. -/
theorem validate_required_fields (c : ObservabilityConfig)
    (h : Validate c = Except.ok ()) :
    (c.ServiceName ≠ "" ∧ c.Logging.Level ≠ "") ∧
    ∀ env format key : String,
      Validate { c with
          Environment := env
          Logging := { c.Logging with Format := format }
          NewRelic := { c.NewRelic with LicenseKey := key } }
        = Except.ok () := by
  have hc := (validate_ok_iff_aux c).1 h
  refine ⟨⟨hc.1, ?_⟩, fun env format key => (validate_ok_iff_aux _).2 hc⟩
  intro he
  have hl := hc.2.1
  rw [he] at hl
  exact absurd hl (by decide)

/-- A concrete instance of the amended C11: the default configuration. -/
theorem validate_required_fields_witness :
    Validate DefaultObservabilityConfig = Except.ok () ∧
    (DefaultObservabilityConfig.ServiceName ≠ "" ∧
      DefaultObservabilityConfig.Logging.Level ≠ "") ∧
    Validate { DefaultObservabilityConfig with
        Environment := ""
        Logging := { DefaultObservabilityConfig.Logging with Format := "" }
        NewRelic := { DefaultObservabilityConfig.NewRelic with LicenseKey := "" } }
      = Except.ok () :=
  ⟨rfl, (validate_required_fields DefaultObservabilityConfig rfl).1,
   (validate_required_fields DefaultObservabilityConfig rfl).2 "" "" ""⟩

/-- C12: on every configuration on which `Validate` succeeds, `GetLoggingLevel`
returns the configured level, which is one of debug, info, warn, error,
whatever the environment is; the fallbacks "info" and "debug" for an empty
level are never taken. -/
theorem getLoggingLevel_of_valid (c : ObservabilityConfig)
    (h : Validate c = Except.ok ()) :
    GetLoggingLevel c = c.Logging.Level ∧
    GetLoggingLevel c ∈ allowedLevels ∧
    c.Logging.Level ≠ "" := by
  have hl := ((validate_ok_iff_aux c).1 h).2.1
  have hne : c.Logging.Level ≠ "" := by
    intro he
    rw [he] at hl
    exact absurd hl (by decide)
  have hg : GetLoggingLevel c = c.Logging.Level := by
    unfold GetLoggingLevel
    by_cases hp : c.Environment = "production"
    · simp [hp, hne]
    · by_cases hd : c.Environment = "development" <;> simp [hp, hd, hne]
  exact ⟨hg, hg ▸ hl, hne⟩

/-- Concrete instances of C12: valid configurations with level "warn" under
the environments "production", "development" and "staging". -/
theorem getLoggingLevel_of_valid_witness :
    GetLoggingLevel { DefaultObservabilityConfig with
        Environment := "production"
        Logging := { DefaultObservabilityConfig.Logging with Level := "warn" } } = "warn" ∧
    GetLoggingLevel { DefaultObservabilityConfig with
        Environment := "development"
        Logging := { DefaultObservabilityConfig.Logging with Level := "warn" } } = "warn" ∧
    GetLoggingLevel { DefaultObservabilityConfig with
        Environment := "staging"
        Logging := { DefaultObservabilityConfig.Logging with Level := "warn" } } = "warn" :=
  ⟨(getLoggingLevel_of_valid _ (by rfl)).1,
   (getLoggingLevel_of_valid _ (by rfl)).1,
   (getLoggingLevel_of_valid _ (by rfl)).1⟩

/-! ## The default configuration -/

/-- C13: on the default configuration `IsProduction` is false and
`GetLoggingLevel` is "info": the default environment is "development", yet the
effective level is the explicitly set "info", not the development fallback
"debug". -/
theorem default_accessors :
    IsProduction DefaultObservabilityConfig = false ∧
    GetLoggingLevel DefaultObservabilityConfig = "info" ∧
    DefaultObservabilityConfig.Environment = "development" ∧
    GetLoggingLevel DefaultObservabilityConfig ≠ "debug" := by
  decide

/-- C14: the default health-check interval (30000000000 ns) and timeout
(3000000000 ns) are both at least one second (1000000000 ns), and the default
timeout is strictly less than the default interval. -/
theorem default_healthChecks_bounds :
    DefaultObservabilityConfig.HealthChecks.Interval = 30000000000 ∧
    DefaultObservabilityConfig.HealthChecks.Timeout = 3000000000 ∧
    Second = 1000000000 ∧
    Second ≤ DefaultObservabilityConfig.HealthChecks.Interval ∧
    Second ≤ DefaultObservabilityConfig.HealthChecks.Timeout ∧
    DefaultObservabilityConfig.HealthChecks.Timeout
      < DefaultObservabilityConfig.HealthChecks.Interval := by
  decide

end Config
